import Mathlib

/-
Verification of the Maji water-platform backend core logic
(order state machine, order pricing, alert feedback, report
deduplication / bounty assignment), shallowly embedded from
src/backend/src/routes/{orders,alerts,reports}.routes.ts,
src/backend/src/utils/helpers.ts and the config module.

Machine numbers are modelled as Nat/Int (integer minor-currency
units, millisecond timestamps as Int); JS float scores are
modelled as rationals; fallible handlers return Except.
-/

namespace Maji

/-- Order status enum from the prisma schema (`OrderStatus`). -/
inductive OrderStatus
  | PENDING
  | ACCEPTED
  | PAYMENT_PENDING
  | PAID
  | PREPARING
  | OUT_FOR_DELIVERY
  | DELIVERED
  | COMPLETED
  | CANCELLED
  | REFUNDED
deriving DecidableEq

/-- Alert status enum (`AlertStatus`). -/
inductive AlertStatus
  | ACTIVE
  | EXPIRED
  | CANCELLED
  | VERIFIED
deriving DecidableEq

/-- Report status enum (`ReportStatus`). -/
inductive ReportStatus
  | PENDING
  | VERIFIED
  | FORWARDED
  | IN_PROGRESS
  | RESOLVED
  | REJECTED
deriving DecidableEq

/-- Report type enum (`ReportType`). -/
inductive ReportType
  | LEAK
  | BURST_PIPE
  | CONTAMINATION
  | BLOCKED_DRAIN
  | FLOOD
  | BROKEN_TAP
  | OTHER
deriving DecidableEq

/-- Escrow status enum on a transaction (`EscrowStatus`). -/
inductive EscrowStatus
  | NONE
  | HELD
  | RELEASED
  | REFUNDED
deriving DecidableEq

/-- User role enum (`UserRole`). -/
inductive UserRole
  | CITIZEN
  | SCOUT
  | VENDOR
  | BUSINESS
  | ADMIN
deriving DecidableEq

/-- Typed errors thrown by the route handlers, from
src/backend/src/utils/errors.ts (`Errors`).  `duplicateReport` stands for
the `Errors.validation` thrown in reports.routes.ts with the message that
the user already submitted a similar report for this location, which the
spec taxonomy calls `DuplicateReport`; `validationError` stands for a
request rejected by the zod schema in the `validate` preHandler. -/
inductive AppError
  | vendorNotFound
  | vendorNotActive
  | productNotFound
  | productUnavailable
  | minOrderNotMet (minOrder : Nat)
  | orderInvalidStatus (current : OrderStatus) (requested : OrderStatus)
  | forbidden
  | validationError
  | duplicateReport
  | orderNotFound
  | alertNotFound
  | reportNotFound
deriving DecidableEq

/-- Authenticated request user: `request.user!.id` and `request.user!.role`. -/
structure Actor where
  id : Nat
  role : UserRole
deriving DecidableEq

/-- Order entity; only the fields the verified handlers read or write.
`vendorUserId` is `order.vendor.userId` (the owning user of the vendor);
timestamps are millisecond instants. -/
structure Order where
  customerId : Nat
  vendorUserId : Nat
  status : OrderStatus
  acceptedAt : Option Int := none
  deliveredAt : Option Int := none
  completedAt : Option Int := none
deriving DecidableEq

/-- Payment transaction attached to an order (fields read by
`confirm-delivery`). -/
structure Transaction where
  escrowStatus : EscrowStatus
  escrowReleasedAt : Option Int := none
deriving DecidableEq

/-- Body schema `updateStatusSchema` of PATCH /orders/:id/status:
`z.enum(['ACCEPTED', 'PREPARING', 'OUT_FOR_DELIVERY', 'DELIVERED'])`.
Any other requested status is rejected by the `validate` preHandler. -/
def updateStatusSchemaAllows : OrderStatus → Bool
  | .ACCEPTED => true
  | .PREPARING => true
  | .OUT_FOR_DELIVERY => true
  | .DELIVERED => true
  | _ => false

/-- The `validTransitions` table hard-coded in the PATCH /orders/:id/status
handler (orders.routes.ts lines 358-369). -/
def validTransitions : OrderStatus → List OrderStatus
  | .PENDING => [.ACCEPTED, .CANCELLED]
  | .ACCEPTED => [.PREPARING, .CANCELLED]
  | .PAYMENT_PENDING => [.PAID, .CANCELLED]
  | .PAID => [.PREPARING]
  | .PREPARING => [.OUT_FOR_DELIVERY]
  | .OUT_FOR_DELIVERY => [.DELIVERED]
  | .DELIVERED => [.COMPLETED]
  | .COMPLETED => []
  | .CANCELLED => []
  | .REFUNDED => []

/-- Modelled from the spec: the transition table of spec.md section 4.3
(current status to allowed next statuses), written from the spec table
itself so it can be compared with the code table `validTransitions`. -/
def specTransitionTable : OrderStatus → List OrderStatus
  | .PENDING => [.ACCEPTED, .CANCELLED]
  | .ACCEPTED => [.PAYMENT_PENDING, .CANCELLED]
  | .PAYMENT_PENDING => [.PAID, .CANCELLED]
  | .PAID => [.PREPARING]
  | .PREPARING => [.OUT_FOR_DELIVERY, .CANCELLED]
  | .OUT_FOR_DELIVERY => [.DELIVERED]
  | .DELIVERED => [.COMPLETED]
  | .COMPLETED => []
  | .CANCELLED => []
  | .REFUNDED => []

/-- PATCH /orders/:id/status handler (orders.routes.ts lines 332-398),
composed with its preHandlers in route order: `authorize('VENDOR','ADMIN')`,
then the `updateStatusSchema` body validation, then the handler itself
(vendor-ownership check, transition check against `validTransitions`,
update).  A request for `ACCEPTED` stamps `acceptedAt` and writes status
`PAYMENT_PENDING`; a request for `DELIVERED` stamps `deliveredAt`. -/
def updateStatus (actor : Actor) (order : Order) (requested : OrderStatus)
    (now : Int) : Except AppError Order :=
  if ¬ (actor.role = .VENDOR ∨ actor.role = .ADMIN) then
    .error .forbidden
  else if updateStatusSchemaAllows requested = false then
    .error .validationError
  else if order.vendorUserId ≠ actor.id ∧ actor.role ≠ .ADMIN then
    .error .forbidden
  else if requested ∈ validTransitions order.status then
    if requested = .ACCEPTED then
      .ok { order with status := .PAYMENT_PENDING, acceptedAt := some now }
    else if requested = .DELIVERED then
      .ok { order with status := .DELIVERED, deliveredAt := some now }
    else
      .ok { order with status := requested }
  else
    .error (.orderInvalidStatus order.status requested)

/-- POST /orders/:id/confirm-delivery handler (orders.routes.ts lines
404-463): customer-only, requires current status `DELIVERED`; on success
sets status `COMPLETED` with `completedAt`, and when a transaction exists
sets its escrow status to `RELEASED` stamping `escrowReleasedAt`. -/
def confirmDelivery (actor : Actor) (order : Order) (txn : Option Transaction)
    (now : Int) : Except AppError (Order × Option Transaction) :=
  if order.customerId ≠ actor.id then
    .error .forbidden
  else if order.status ≠ .DELIVERED then
    .error (.orderInvalidStatus order.status .DELIVERED)
  else
    .ok ({ order with status := .COMPLETED, completedAt := some now },
      txn.map (fun t =>
        { t with escrowStatus := .RELEASED, escrowReleasedAt := some now }))

/-- Platform fee from src/backend/src/utils/helpers.ts
(`calculatePlatformFee`): `Math.max(500, Math.min(50000,
Math.round(subtotal * 0.05)))`.  For a natural-number subtotal,
`Math.round(subtotal * 0.05)` is half-up rounding of `subtotal / 20`,
which is `(subtotal + 10) / 20` in natural division; the default
arguments `feePercentage = 0.05`, `minFee = 500`, `maxFee = 50000` are
inlined because every call site uses them. -/
def calculatePlatformFee (subtotal : Nat) : Nat :=
  max 500 (min 50000 ((subtotal + 10) / 20))

/-- Half-up rounding of a rational, as JavaScript `Math.round` behaves on
non-negative numbers. -/
def jsRound (q : ℚ) : Int := ⌊q + 1 / 2⌋

/-- Modelled from the spec: section 4.1 defines
`platformFee(subtotal, rate=0.05, min=500, max=50000)` as
`clamp(round(subtotal*rate), min, max)`.  Written from the spec words so
it can be compared with the code definition `calculatePlatformFee`. -/
def specPlatformFee (subtotal : Nat) : Int :=
  min 50000 (max 500 (jsRound ((subtotal : ℚ) * (5 / 100))))

/-- Product row as read by the order-creation handler. -/
structure Product where
  id : Nat
  price : Nat
  isAvailable : Bool
deriving DecidableEq

/-- Vendor row (with its product catalog included) as read by the
order-creation handler. -/
structure Vendor where
  isActive : Bool
  isVerified : Bool
  minOrder : Nat
  deliveryFee : Nat
  products : List Product
deriving DecidableEq

/-- Order line item built by the order-creation handler: unit price is the
product price snapshot, `totalPrice = price * quantity`. -/
structure OrderItem where
  productId : Nat
  quantity : Nat
  unitPrice : Nat
  totalPrice : Nat
deriving DecidableEq

/-- Priced order draft produced by POST /orders. -/
structure PricedOrder where
  subtotal : Nat
  deliveryFee : Nat
  platformFee : Nat
  totalAmount : Nat
  items : List OrderItem
deriving DecidableEq

/-- Line-item construction loop of the order-creation handler: for each
requested `(productId, quantity)` pair it looks the product up among the
matched products (`products.find((p) => p.id === item.productId)!`) and
builds the snapshot line item.  `none` models the non-null assertion
failing, which is unreachable once the product-count check has passed. -/
def buildItems (products : List Product) :
    List (Nat × Nat) → Option (List OrderItem)
  | [] => some []
  | (pid, qty) :: rest =>
    match products.find? (fun p => p.id = pid) with
    | none => none
    | some p =>
      (buildItems products rest).map
        (fun l => { productId := pid, quantity := qty, unitPrice := p.price,
                    totalPrice := p.price * qty } :: l)

/-- POST /orders handler core (orders.routes.ts lines 208-326) after a
vendor row was found, composed with the `createOrderSchema` body checks
that concern the items list (at least one item, each quantity at least 1).
Checks active/verified vendor, that the number of matched catalog products
equals the number of requested product ids, that no matched product is
unavailable, computes the subtotal, enforces the vendor minimum order and
prices the order with the vendor delivery fee and the platform fee. -/
def createOrder (vendor : Vendor) (items : List (Nat × Nat)) :
    Except AppError PricedOrder :=
  if items.isEmpty ∨ items.any (fun it => it.2 < 1) then
    .error .validationError
  else if ¬ (vendor.isActive ∧ vendor.isVerified) then
    .error .vendorNotActive
  else
    let productIds := items.map Prod.fst
    let products := vendor.products.filter (fun p => productIds.contains p.id)
    if products.length ≠ productIds.length then
      .error .productNotFound
    else if (products.find? (fun p => p.isAvailable = false)).isSome then
      .error .productUnavailable
    else
      match buildItems products items with
      | none => .error .productNotFound
      | some orderItems =>
        let subtotal := (orderItems.map OrderItem.totalPrice).sum
        if subtotal < vendor.minOrder then
          .error (.minOrderNotMet vendor.minOrder)
        else
          let deliveryFee := vendor.deliveryFee
          let platformFee := calculatePlatformFee subtotal
          .ok { subtotal := subtotal, deliveryFee := deliveryFee,
                platformFee := platformFee,
                totalAmount := subtotal + deliveryFee + platformFee,
                items := orderItems }

/-- Catalog price of a product id: price of the first catalog product with
that id, 0 when absent.  Used to state subtotal equations. -/
def priceOf (catalog : List Product) (pid : Nat) : Nat :=
  ((catalog.find? (fun p => p.id = pid)).map Product.price).getD 0

/-- Alert entity; the fields the alert handlers read or write.
`feedbackScore` is nullable in the schema (`Float?`), modelled as an
optional rational. -/
structure Alert where
  scoutId : Nat
  status : AlertStatus
  feedbackScore : Option ℚ := none
  feedbackCount : Nat := 0
  isVerified : Bool := false
deriving DecidableEq

/-- POST /alerts/:id/feedback handler core (alerts.routes.ts lines
269-292): running-mean update `newScore = (currentScore * feedbackCount +
(accurate ? 1 : 0)) / (feedbackCount + 1)` with `currentScore =
alert.feedbackScore || 0`, increments the count, and recomputes
`isVerified = newScore >= 0.7 && newFeedbackCount >= 3`. -/
def submitFeedback (alert : Alert) (accurate : Bool) : Alert :=
  let newFeedbackCount := alert.feedbackCount + 1
  let currentScore := alert.feedbackScore.getD 0
  let feedbackValue : ℚ := if accurate then 1 else 0
  let newScore :=
    (currentScore * alert.feedbackCount + feedbackValue) / newFeedbackCount
  { alert with
    feedbackScore := some newScore,
    feedbackCount := newFeedbackCount,
    isVerified := decide (7 / 10 ≤ newScore) && decide (3 ≤ newFeedbackCount) }

/-- PATCH /alerts/:id/cancel handler (alerts.routes.ts lines 311-346):
only the creating scout or an admin may cancel; the alert status is set to
`CANCELLED` with no check of the current status. -/
def cancelAlert (actor : Actor) (alert : Alert) : Except AppError Alert :=
  if alert.scoutId ≠ actor.id ∧ actor.role ≠ .ADMIN then
    .error .forbidden
  else
    .ok { alert with status := .CANCELLED }

/-- Longitude/latitude point (coordinates of a GeoJSON Point). -/
structure GeoPoint where
  lng : ℚ
  lat : ℚ
deriving DecidableEq

/-- Report entity; the fields the report handlers read or write. -/
structure Report where
  userId : Nat
  rtype : ReportType
  location : GeoPoint
  status : ReportStatus := .PENDING
  verifiedCount : Nat := 0
  bountyAmount : Nat := 0
  bountyPaid : Bool := false
  bountyPaidAt : Option Int := none
  resolvedAt : Option Int := none
  resolvedBy : Option Nat := none
  resolution : Option String := none
  createdAt : Int := 0
deriving DecidableEq

/-- The `config.bounty` object from the config module, keyed by its
literal JavaScript property names. -/
def bountyTable : List (String × Nat) :=
  [("leak", 20000), ("burstPipe", 30000), ("contamination", 25000),
   ("blockedDrain", 15000), ("flood", 20000), ("brokenTap", 10000),
   ("other", 5000)]

/-- Result of `type.toLowerCase()` on a `ReportType` enum value. -/
def ReportType.lowerName : ReportType → String
  | .LEAK => "leak"
  | .BURST_PIPE => "burst_pipe"
  | .CONTAMINATION => "contamination"
  | .BLOCKED_DRAIN => "blocked_drain"
  | .FLOOD => "flood"
  | .BROKEN_TAP => "broken_tap"
  | .OTHER => "other"

/-- Bounty lookup of the report-creation handler (reports.routes.ts line
81): `config.bounty[type.toLowerCase()] || config.bounty.other`.  A missing
key, like a zero value, is falsy and falls back to `config.bounty.other`
(5000). -/
def bountyFor (t : ReportType) : Nat :=
  match bountyTable.find? (fun kv => kv.fst = ReportType.lowerName t) with
  | some kv => if kv.snd = 0 then 5000 else kv.snd
  | none => 5000

/-- The 24-hour recency window of the report dedup query, in
milliseconds. -/
def reportWindowMs : Int := 24 * 60 * 60 * 1000

/-- Filter of the `recentReports` query in the report-creation handler:
same type, status in PENDING/VERIFIED/FORWARDED/IN_PROGRESS, created at or
after `now` minus 24 hours. -/
def isRecentMatch (rtype : ReportType) (now : Int) (r : Report) : Bool :=
  decide (r.rtype = rtype) &&
  (decide (r.status = .PENDING) || decide (r.status = .VERIFIED) ||
    decide (r.status = .FORWARDED) || decide (r.status = .IN_PROGRESS)) &&
  decide (now - reportWindowMs ≤ r.createdAt)

/-- Proximity test of the report-creation handler: haversine distance
strictly below 100 meters.  The distance function is a parameter: the code
computes it with `calculateDistance` (floating-point trigonometry in
helpers.ts), which the dedup logic only consumes through this
comparison. -/
def isNearby (dist : GeoPoint → GeoPoint → ℚ) (loc : GeoPoint) (r : Report) :
    Bool :=
  decide (dist loc r.location < 100)

/-- Recent same-type reports within 100 meters of the new location: the
`recentReports` query filtered by the handler loop distance test
(reports.routes.ts lines 50-71). -/
def recentNearby (dist : GeoPoint → GeoPoint → ℚ) (db : List Report)
    (rtype : ReportType) (location : GeoPoint) (now : Int) : List Report :=
  (db.filter (isRecentMatch rtype now)).filter (isNearby dist location)

/-- The handler's `nearbyReportCount` counter. -/
def nearbyCount (dist : GeoPoint → GeoPoint → ℚ) (db : List Report)
    (rtype : ReportType) (location : GeoPoint) (now : Int) : Nat :=
  (recentNearby dist db rtype location now).length

/-- The report created by `prisma.report.create` (reports.routes.ts lines
84-95): default status PENDING, `verifiedCount = nearbyReportCount + 1`,
per-type bounty. -/
def newReportFor (dist : GeoPoint → GeoPoint → ℚ) (db : List Report)
    (userId : Nat) (rtype : ReportType) (location : GeoPoint) (now : Int) :
    Report :=
  { userId := userId, rtype := rtype, location := location,
    bountyAmount := bountyFor rtype,
    verifiedCount := nearbyCount dist db rtype location now + 1,
    createdAt := now }

/-- The update applied to a nearby pending report in the auto-verify loop
(reports.routes.ts lines 109-115): status VERIFIED, verifiedCount
refreshed to `nearbyReportCount + 1`. -/
def upgradeReport (n : Nat) (r : Report) : Report :=
  { r with status := .VERIFIED, verifiedCount := n + 1 }

/-- The auto-verify loop over the pre-existing reports (reports.routes.ts
lines 104-118): every recent same-type report within 100 meters that is
still PENDING is upgraded; all other reports are untouched. -/
def applyUpgrade (dist : GeoPoint → GeoPoint → ℚ) (db : List Report)
    (rtype : ReportType) (location : GeoPoint) (now : Int) : List Report :=
  db.map (fun r =>
    if isRecentMatch rtype now r ∧ isNearby dist location r ∧
        r.status = .PENDING then
      upgradeReport (nearbyCount dist db rtype location now) r
    else r)

/-- POST /reports handler core (reports.routes.ts lines 38-140): counts
recent same-type reports within 100 meters, rejects a duplicate by the
same reporter, otherwise creates the report with `verifiedCount =
nearbyReportCount + 1` and the per-type bounty; when `nearbyReportCount >=
2` the new report is set to `VERIFIED` and every nearby matching report
still `PENDING` is upgraded.  Returns the created report and the updated
pre-existing reports. -/
def createReport (dist : GeoPoint → GeoPoint → ℚ) (db : List Report)
    (userId : Nat) (rtype : ReportType) (location : GeoPoint) (now : Int) :
    Except AppError (Report × List Report) :=
  if (recentNearby dist db rtype location now).any
      (fun r => r.userId == userId) then
    .error .duplicateReport
  else if 2 ≤ nearbyCount dist db rtype location now then
    .ok ({ newReportFor dist db userId rtype location now with
           status := .VERIFIED },
      applyUpgrade dist db rtype location now)
  else
    .ok (newReportFor dist db userId rtype location now, db)

/-- Fixed reputation bonus `config.reputation.verifiedReportBonus` awarded
when a bounty is paid. -/
def verifiedReportBonus : Nat := 15

/-- PATCH /reports/:id/status handler (reports.routes.ts lines 313-371)
for an existing report: sets the requested status with no check of the
current status; when the requested status is `RESOLVED` it additionally
sets `resolvedAt`, `resolvedBy` and `resolution`, and, when the bounty is
unpaid and the bounty amount is truthy (non-zero), marks `bountyPaid`,
stamps `bountyPaidAt` and adds the fixed bonus to the reporter
reputation.  Returns the updated report and the reporter reputation. -/
def updateReportStatus (adminId : Nat) (report : Report)
    (status : ReportStatus) (resolution : Option String) (now : Int)
    (reporterRep : Nat) : Except AppError (Report × Nat) :=
  if status = .RESOLVED then
    if report.bountyPaid = false ∧ report.bountyAmount ≠ 0 then
      .ok ({ report with
              status := status, resolvedAt := some now,
              resolvedBy := some adminId, resolution := resolution,
              bountyPaid := true, bountyPaidAt := some now },
        reporterRep + verifiedReportBonus)
    else
      .ok ({ report with
              status := status, resolvedAt := some now,
              resolvedBy := some adminId, resolution := resolution },
        reporterRep)
  else
    .ok ({ report with status := status }, reporterRep)

/-! Concrete entities used to instantiate the theorems below. -/

/-- Vendor-owning user used for order status updates. -/
def vendorActorC1 : Actor := { id := 10, role := .VENDOR }

/-- Order in status ACCEPTED owned by vendor user 10. -/
def acceptedOrderC1 : Order :=
  { customerId := 1, vendorUserId := 10, status := .ACCEPTED }

/-- Customer user 3. -/
def actorC2 : Actor := { id := 3, role := .CITIZEN }

/-- Delivered order of customer 3. -/
def orderC2 : Order :=
  { customerId := 3, vendorUserId := 10, status := .DELIVERED }

/-- Transaction whose escrow is held. -/
def txnC2 : Transaction := { escrowStatus := .HELD }

/-- Active, verified vendor with one available product. -/
def vendorC3 : Vendor :=
  { isActive := true, isVerified := true, minOrder := 0, deliveryFee := 0,
    products := [{ id := 1, price := 1000, isAvailable := true }] }

/-- Active, verified vendor with minimum order 10000, delivery fee 500 and
one available product priced 5000. -/
def vendorC3W : Vendor :=
  { isActive := true, isVerified := true, minOrder := 10000,
    deliveryFee := 500,
    products := [{ id := 1, price := 5000, isAvailable := true }] }

/-- Fresh active alert by scout 2. -/
def freshAlertC4 : Alert := { scoutId := 2, status := .ACTIVE }

/-- The alert after three accurate feedback submissions. -/
def verifiedAlertC4 : Alert :=
  submitFeedback (submitFeedback (submitFeedback freshAlertC4 true) true) true

/-- Origin coordinate. -/
def originPt : GeoPoint := { lng := 0, lat := 0 }

/-- Degenerate distance function mapping every pair of points to 0 meters
(all reports mutually nearby). -/
def distZero : GeoPoint → GeoPoint → ℚ := fun _ _ => 0

/-- Pending LEAK report by reporter 1 at the origin. -/
def rAC5 : Report := { userId := 1, rtype := .LEAK, location := originPt }

/-- Pending LEAK report by reporter 2 at the origin. -/
def rBC5 : Report := { userId := 2, rtype := .LEAK, location := originPt }

/-- Pending LEAK report by reporter 4 at the origin. -/
def reportC6 : Report := { userId := 4, rtype := .LEAK, location := originPt }

/-- Scout user 7. -/
def scoutActorC8 : Actor := { id := 7, role := .SCOUT }

/-- Expired alert created by scout 7. -/
def expiredAlertC8 : Alert := { scoutId := 7, status := .EXPIRED }

/-- Unresolved report by reporter 4 with an unpaid 20000 bounty. -/
def reportC9 : Report :=
  { userId := 4, rtype := .LEAK, location := originPt, bountyAmount := 20000 }

/-- The report reportC9 after a first resolve by admin 9 at time 100. -/
def resolvedReportC9 : Report :=
  { reportC9 with
    status := .RESOLVED, resolvedAt := some 100, resolvedBy := some 9,
    resolution := some "fixed", bountyPaid := true, bountyPaidAt := some 100 }

/-! Theorems. -/

/-- Evaluation of isOk on an error result. -/
theorem isOk_error {ε α : Type} (e : ε) :
    (Except.error e : Except ε α).isOk = false := rfl

/-- Evaluation of isOk on a success result. -/
theorem isOk_ok {ε α : Type} (a : α) :
    (Except.ok a : Except ε α).isOk = true := rfl

/-- Half-up rounding of five percent of a natural number equals natural
division of `x + 10` by 20. -/
theorem jsRound_five_percent (x : Nat) :
    jsRound ((x : ℚ) * (5 / 100)) = ((x + 10) / 20 : Nat) := by
  unfold jsRound
  have h : (x : ℚ) * (5 / 100) + 1 / 2 = ((x + 10 : ℕ) : ℚ) / ((20 : ℕ) : ℚ) := by
    push_cast
    ring
  rw [h, Rat.floor_natCast_div_natCast]
  omega

/-- C10: for every non-negative subtotal x, the code platform fee equals
the spec formula clamp(round(x * 0.05), 500, 50000); the fee always lies
in [500, 50000] and is monotonically non-decreasing in x. -/
theorem calculatePlatformFee_spec (x : Nat) :
    (calculatePlatformFee x : Int) = specPlatformFee x ∧
    500 ≤ calculatePlatformFee x ∧ calculatePlatformFee x ≤ 50000 ∧
    ∀ y : Nat, x ≤ y → calculatePlatformFee x ≤ calculatePlatformFee y := by
  refine ⟨?_, ?_, ?_, ?_⟩
  · unfold specPlatformFee calculatePlatformFee
    rw [jsRound_five_percent]
    push_cast [Nat.cast_max, Nat.cast_min]
    omega
  · unfold calculatePlatformFee
    omega
  · unfold calculatePlatformFee
    omega
  · intro y hxy
    unfold calculatePlatformFee
    have hd : (x + 10) / 20 ≤ (y + 10) / 20 :=
      Nat.div_le_div_right (Nat.add_le_add_right hxy 10)
    omega

/-- Witness for calculatePlatformFee_spec at subtotal 20000 (fee 1000),
including monotonicity towards subtotal 30000. -/
theorem calculatePlatformFee_spec_witness :
    (calculatePlatformFee 20000 : Int) = specPlatformFee 20000 ∧
    500 ≤ calculatePlatformFee 20000 ∧ calculatePlatformFee 20000 ≤ 50000 ∧
    calculatePlatformFee 20000 ≤ calculatePlatformFee 30000 :=
  ⟨(calculatePlatformFee_spec 20000).1, (calculatePlatformFee_spec 20000).2.1,
   (calculatePlatformFee_spec 20000).2.2.1,
   (calculatePlatformFee_spec 20000).2.2.2 30000 (by decide)⟩

/-- C7: the bounty lookup lowercases the enum name (`burst_pipe`,
`blocked_drain`, `broken_tap`) but the config keys are camelCase
(`burstPipe`, `blockedDrain`, `brokenTap`), so the three multi-word types
fall through to the default 5000 instead of their table amounts, while the
single-word types hit their table entries. -/
theorem bountyFor_key_mismatch :
    bountyFor .BURST_PIPE = 5000 ∧ bountyFor .BLOCKED_DRAIN = 5000 ∧
    bountyFor .BROKEN_TAP = 5000 ∧
    (bountyTable.find? (fun kv => kv.fst = "burstPipe")).map Prod.snd =
      some 30000 ∧
    (bountyTable.find? (fun kv => kv.fst = "blockedDrain")).map Prod.snd =
      some 15000 ∧
    (bountyTable.find? (fun kv => kv.fst = "brokenTap")).map Prod.snd =
      some 10000 ∧
    bountyFor .LEAK = 20000 ∧ bountyFor .CONTAMINATION = 25000 ∧
    bountyFor .FLOOD = 20000 ∧ bountyFor .OTHER = 5000 := by
  decide

/-- C8 counterexample: the cancel handler never reads the alert status, so
cancelling an EXPIRED alert succeeds, while the claim requires every
cancel of a non-ACTIVE alert to fail. -/
theorem cancelAlert_ignores_status :
    expiredAlertC8.status ≠ AlertStatus.ACTIVE ∧
    cancelAlert scoutActorC8 expiredAlertC8 =
      .ok { expiredAlertC8 with status := .CANCELLED } := by
  exact ⟨by decide, rfl⟩

/-- C8 amended: cancel succeeds exactly when the actor is the creating
scout or an administrator, regardless of the current alert status, and on
success sets status CANCELLED; an unauthorized actor gets Forbidden and
the alert is unchanged. -/
theorem cancelAlert_spec (actor : Actor) (alert : Alert) :
    ((alert.scoutId = actor.id ∨ actor.role = .ADMIN) →
      cancelAlert actor alert = .ok { alert with status := .CANCELLED }) ∧
    (alert.scoutId ≠ actor.id ∧ actor.role ≠ .ADMIN →
      cancelAlert actor alert = .error .forbidden) := by
  constructor
  · intro h
    have hn : ¬ (alert.scoutId ≠ actor.id ∧ actor.role ≠ .ADMIN) := by tauto
    simp only [cancelAlert, if_neg hn]
  · intro h
    simp only [cancelAlert, if_pos h]

/-- Witness for cancelAlert_spec: scout 7 cancels their own expired
alert. -/
theorem cancelAlert_spec_witness :
    cancelAlert scoutActorC8 expiredAlertC8 =
      .ok { expiredAlertC8 with status := .CANCELLED } :=
  (cancelAlert_spec scoutActorC8 expiredAlertC8).1 (Or.inl rfl)

/-- C9 counterexample: resolving an already-RESOLVED report succeeds again
(the handler never checks the current status), while the claim requires
the second resolve to fail; the bounty, however, is not paid twice. -/
theorem updateReportStatus_double_resolve :
    updateReportStatus 9 reportC9 .RESOLVED (some "fixed") 100 0 =
      .ok (resolvedReportC9, 15) ∧
    resolvedReportC9.status = ReportStatus.RESOLVED ∧
    updateReportStatus 9 resolvedReportC9 .RESOLVED (some "fixed") 200 15 =
      .ok ({ resolvedReportC9 with resolvedAt := some 200 }, 15) := by
  exact ⟨rfl, rfl, rfl⟩

/-- C9 amended: resolve succeeds for any current status (including an
already-RESOLVED report); it sets resolvedAt, resolvedBy, resolution and
status RESOLVED, and pays the bounty (bountyPaid, bountyPaidAt, fixed
reputation bonus) exactly when the bounty was unpaid and non-zero, hence
at most once across repeated resolves. -/
theorem updateReportStatus_resolve_spec (adminId : Nat) (report : Report)
    (resolution : Option String) (now : Int) (rep : Nat) :
    (report.bountyPaid = false ∧ report.bountyAmount ≠ 0 →
      updateReportStatus adminId report .RESOLVED resolution now rep =
        .ok ({ report with
                status := .RESOLVED, resolvedAt := some now,
                resolvedBy := some adminId, resolution := resolution,
                bountyPaid := true, bountyPaidAt := some now },
          rep + verifiedReportBonus)) ∧
    (report.bountyPaid = true ∨ report.bountyAmount = 0 →
      updateReportStatus adminId report .RESOLVED resolution now rep =
        .ok ({ report with
                status := .RESOLVED, resolvedAt := some now,
                resolvedBy := some adminId, resolution := resolution },
          rep)) := by
  constructor
  · intro h
    simp only [updateReportStatus, if_pos rfl, if_pos h, if_true]
  · intro h
    have hn : ¬ (report.bountyPaid = false ∧ report.bountyAmount ≠ 0) := by
      rcases h with h | h <;> simp [h]
    simp only [updateReportStatus, if_pos rfl, if_neg hn, if_true]

/-- Witness for updateReportStatus_resolve_spec: admin 9 resolves the
pending report with the unpaid 20000 bounty. -/
theorem updateReportStatus_resolve_spec_witness :
    updateReportStatus 9 reportC9 .RESOLVED (some "fixed") 100 0 =
      .ok ({ reportC9 with
              status := .RESOLVED, resolvedAt := some 100,
              resolvedBy := some 9, resolution := some "fixed",
              bountyPaid := true, bountyPaidAt := some 100 },
        0 + verifiedReportBonus) :=
  (updateReportStatus_resolve_spec 9 reportC9 (some "fixed") 100 0).1
    ⟨rfl, by decide⟩

/-- C1 counterexample: from status ACCEPTED the handler accepts a
PREPARING request and moves the order to PREPARING, while the spec
transition-table row for ACCEPTED is {PAYMENT_PENDING, CANCELLED}, so the
claimed iff fails at this input. -/
theorem updateStatus_spec_table_counterexample :
    (updateStatus vendorActorC1 acceptedOrderC1 .PREPARING 0).isOk = true ∧
    OrderStatus.PREPARING ∉ specTransitionTable .ACCEPTED ∧
    updateStatus vendorActorC1 acceptedOrderC1 .PREPARING 0 =
      .ok { acceptedOrderC1 with status := .PREPARING } := by
  refine ⟨rfl, by decide, rfl⟩

/-- C1 amended: for an authorized caller (owning vendor user or admin),
updateStatus succeeds iff the requested status passes the request schema
(one of ACCEPTED, PREPARING, OUT_FOR_DELIVERY, DELIVERED) and lies in the
code transition table `validTransitions` for the current status (whose
rows for ACCEPTED and PREPARING are {PREPARING, CANCELLED} and
{OUT_FOR_DELIVERY}); a schema-allowed but table-disallowed pair fails with
InvalidTransition carrying (current, requested) and performs no update,
and a schema-rejected status fails with a validation error. -/
theorem updateStatus_spec (actor : Actor) (order : Order)
    (requested : OrderStatus) (now : Int)
    (hrole : actor.role = .VENDOR ∨ actor.role = .ADMIN)
    (hown : order.vendorUserId = actor.id ∨ actor.role = .ADMIN) :
    ((updateStatus actor order requested now).isOk = true ↔
      updateStatusSchemaAllows requested = true ∧
      requested ∈ validTransitions order.status) ∧
    (updateStatusSchemaAllows requested = true →
      requested ∉ validTransitions order.status →
      updateStatus actor order requested now =
        .error (.orderInvalidStatus order.status requested)) ∧
    (updateStatusSchemaAllows requested = false →
      updateStatus actor order requested now = .error .validationError) := by
  have h1 : ¬ ¬ (actor.role = .VENDOR ∨ actor.role = .ADMIN) := not_not.mpr hrole
  have h2 : ¬ (order.vendorUserId ≠ actor.id ∧ actor.role ≠ .ADMIN) := by tauto
  unfold updateStatus
  rw [if_neg h1]
  by_cases hs : updateStatusSchemaAllows requested = false
  · rw [if_pos hs]
    refine ⟨by simp [hs, isOk_error], ?_, fun _ => rfl⟩
    intro ht
    rw [ht] at hs
    cases hs
  · have hs' : updateStatusSchemaAllows requested = true := by
      cases h : updateStatusSchemaAllows requested
      · exact absurd h hs
      · rfl
    rw [if_neg hs, if_neg h2]
    by_cases hm : requested ∈ validTransitions order.status
    · rw [if_pos hm]
      refine ⟨⟨fun _ => ⟨hs', hm⟩, fun _ => ?_⟩,
        fun _ hnm => absurd hm hnm, fun hf => absurd hf hs⟩
      by_cases ha : requested = .ACCEPTED
      · rw [if_pos ha]; rfl
      · rw [if_neg ha]
        by_cases hd : requested = .DELIVERED
        · rw [if_pos hd]; rfl
        · rw [if_neg hd]; rfl
    · rw [if_neg hm]
      exact ⟨by simp [hm, isOk_error], fun _ _ => rfl, fun hf => absurd hf hs⟩

/-- Witness for updateStatus_spec: vendor user 10 on their ACCEPTED order
gets a success for requested PREPARING and a schema rejection for
requested PAID. -/
theorem updateStatus_spec_witness :
    (updateStatus vendorActorC1 acceptedOrderC1 .PREPARING 5).isOk = true ∧
    updateStatus vendorActorC1 acceptedOrderC1 .PAID 5 =
      .error .validationError := by
  have h := updateStatus_spec vendorActorC1 acceptedOrderC1 .PREPARING 5
    (Or.inl rfl) (Or.inl rfl)
  have h2 := updateStatus_spec vendorActorC1 acceptedOrderC1 .PAID 5
    (Or.inl rfl) (Or.inl rfl)
  exact ⟨h.1.mpr (by decide), h2.2.2 (by decide)⟩

/-- Helper: confirmDelivery always fails on an order that is not in
status DELIVERED. -/
theorem confirmDelivery_not_delivered (actor : Actor) (order : Order)
    (txn : Option Transaction) (now : Int)
    (h : order.status ≠ OrderStatus.DELIVERED) :
    (confirmDelivery actor order txn now).isOk = false := by
  unfold confirmDelivery
  by_cases hc : order.customerId = actor.id
  · rw [if_neg (not_not.mpr hc), if_pos h]
    exact isOk_error _
  · rw [if_pos hc]
    exact isOk_error _

/-- C2: confirmDelivery succeeds exactly when the actor is the order
customer and the status is DELIVERED; on success the order becomes
COMPLETED with completedAt stamped, a held escrow is moved to RELEASED
with escrowReleasedAt stamped, and any second confirmDelivery on the
resulting order fails. -/
theorem confirmDelivery_spec (actor : Actor) (order : Order)
    (txn : Option Transaction) (now : Int) :
    ((confirmDelivery actor order txn now).isOk = true ↔
      order.customerId = actor.id ∧ order.status = .DELIVERED) ∧
    (∀ o2 t2, confirmDelivery actor order txn now = .ok (o2, t2) →
      o2.status = .COMPLETED ∧ o2.completedAt = some now ∧
      (∀ t, txn = some t → t.escrowStatus = .HELD →
        t2 = some { t with escrowStatus := .RELEASED,
                           escrowReleasedAt := some now }) ∧
      ∀ actor2 now2, (confirmDelivery actor2 o2 t2 now2).isOk = false) := by
  by_cases hc : order.customerId = actor.id
  · by_cases hd : order.status = OrderStatus.DELIVERED
    · have hrun : confirmDelivery actor order txn now =
          .ok ({ order with status := .COMPLETED, completedAt := some now },
            txn.map (fun t =>
              { t with escrowStatus := .RELEASED,
                       escrowReleasedAt := some now })) := by
        unfold confirmDelivery
        rw [if_neg (not_not.mpr hc), if_neg (not_not.mpr hd)]
      constructor
      · rw [hrun]
        simp [isOk_ok, hc, hd]
      · intro o2 t2 hok
        rw [hrun] at hok
        injection hok with hpair
        rw [Prod.mk.injEq] at hpair
        obtain ⟨ho2, ht2⟩ := hpair
        subst ho2
        subst ht2
        refine ⟨rfl, rfl, ?_, ?_⟩
        · intro t htx _
          rw [htx]
          rfl
        · intro actor2 now2
          exact confirmDelivery_not_delivered actor2 _ _ now2 (by simp)
    · have hrun : confirmDelivery actor order txn now =
          .error (.orderInvalidStatus order.status .DELIVERED) := by
        unfold confirmDelivery
        rw [if_neg (not_not.mpr hc), if_pos hd]
      refine ⟨by rw [hrun]; simp [isOk_error, hd], fun o2 t2 hok => ?_⟩
      rw [hrun] at hok
      cases hok
  · have hrun : confirmDelivery actor order txn now = .error .forbidden := by
      unfold confirmDelivery
      rw [if_pos hc]
    refine ⟨by rw [hrun]; simp [isOk_error, hc], fun o2 t2 hok => ?_⟩
    rw [hrun] at hok
    cases hok

/-- Witness for confirmDelivery_spec: customer 3 confirms their delivered
order with a held transaction. -/
theorem confirmDelivery_spec_witness :
    (confirmDelivery actorC2 orderC2 (some txnC2) 50).isOk = true ∧
    ∀ o2 t2, confirmDelivery actorC2 orderC2 (some txnC2) 50 = .ok (o2, t2) →
      o2.status = .COMPLETED ∧
      t2 = some { txnC2 with escrowStatus := .RELEASED,
                             escrowReleasedAt := some 50 } := by
  have h := confirmDelivery_spec actorC2 orderC2 (some txnC2) 50
  refine ⟨h.1.mpr ⟨rfl, rfl⟩, fun o2 t2 hok => ?_⟩
  have h2 := h.2 o2 t2 hok
  exact ⟨h2.1, h2.2.2.1 txnC2 rfl rfl⟩

/-- C4 counterexample: three accurate feedbacks verify the alert (score 1,
count 3); two later inaccurate feedbacks drop the running mean to 3/5 <
0.7 and the recomputation flips isVerified back to false. -/
theorem submitFeedback_unsets_verified :
    verifiedAlertC4.isVerified = true ∧
    (submitFeedback (submitFeedback verifiedAlertC4 false) false).isVerified
      = false := by
  constructor
  · norm_num [verifiedAlertC4, freshAlertC4, submitFeedback]
  · norm_num [verifiedAlertC4, freshAlertC4, submitFeedback]

/-- C4 amended: isVerified is recomputed on every feedback from the
updated running mean and count, so after each call it is true iff the new
score is at least 0.7 and the new count at least 3; it is not monotone:
an alert with isVerified true can have it flipped back to false by a later
inaccurate feedback. -/
theorem submitFeedback_isVerified_recomputed (alert : Alert)
    (accurate : Bool) :
    ((submitFeedback alert accurate).isVerified = true ↔
      7 / 10 ≤ (alert.feedbackScore.getD 0 * alert.feedbackCount +
        (if accurate then (1 : ℚ) else 0)) / (alert.feedbackCount + 1) ∧
      3 ≤ alert.feedbackCount + 1) ∧
    ∃ a : Alert, a.isVerified = true ∧
      (submitFeedback a false).isVerified = false := by
  constructor
  · unfold submitFeedback
    simp [Bool.and_eq_true, decide_eq_true_iff]
  · refine ⟨submitFeedback verifiedAlertC4 false, ?_, ?_⟩
    · norm_num [verifiedAlertC4, freshAlertC4, submitFeedback]
    · norm_num [verifiedAlertC4, freshAlertC4, submitFeedback]

/-- Witness for submitFeedback_isVerified_recomputed at the fresh alert
with one accurate feedback. -/
theorem submitFeedback_isVerified_recomputed_witness :
    ((submitFeedback freshAlertC4 true).isVerified = true ↔
      7 / 10 ≤ (freshAlertC4.feedbackScore.getD 0 * freshAlertC4.feedbackCount
        + (if true then (1 : ℚ) else 0)) / (freshAlertC4.feedbackCount + 1) ∧
      3 ≤ freshAlertC4.feedbackCount + 1) ∧
    ∃ a : Alert, a.isVerified = true ∧
      (submitFeedback a false).isVerified = false :=
  submitFeedback_isVerified_recomputed freshAlertC4 true

/-- C6: report creation fails with the duplicate-report validation error
whenever the same reporter already has a recent (24 h) same-type report
with live status within 100 meters of the new location, and no report is
created. -/
theorem createReport_duplicate (dist : GeoPoint → GeoPoint → ℚ)
    (db : List Report) (userId : Nat) (rtype : ReportType)
    (location : GeoPoint) (now : Int)
    (h : ∃ r ∈ db, isRecentMatch rtype now r = true ∧
      isNearby dist location r = true ∧ r.userId = userId) :
    createReport dist db userId rtype location now =
      .error .duplicateReport := by
  obtain ⟨r, hmem, hmatch, hnear, huser⟩ := h
  have hany : (recentNearby dist db rtype location now).any
      (fun q => q.userId == userId) = true := by
    rw [List.any_eq_true]
    refine ⟨r, List.mem_filter.mpr
      ⟨List.mem_filter.mpr ⟨hmem, hmatch⟩, hnear⟩, ?_⟩
    simp [huser]
  unfold createReport
  rw [if_pos hany]

/-- Witness for createReport_duplicate: reporter 4 re-reports the LEAK at
the origin within the window. -/
theorem createReport_duplicate_witness :
    createReport distZero [reportC6] 4 .LEAK originPt 0 =
      .error .duplicateReport :=
  createReport_duplicate distZero [reportC6] 4 .LEAK originPt 0
    ⟨reportC6, by simp, by decide, by decide, rfl⟩

/-- C5: when the recent same-type nearby reports come from other reporters
and number at least 2, creation succeeds, the new report is the created
record but with status VERIFIED and verifiedCount = nearbyCount + 1, and
every nearby matching report still PENDING is upgraded to VERIFIED with
its verifiedCount refreshed to the same value. -/
theorem createReport_autoVerify (dist : GeoPoint → GeoPoint → ℚ)
    (db : List Report) (userId : Nat) (rtype : ReportType)
    (location : GeoPoint) (now : Int)
    (hother : ∀ r ∈ db, isRecentMatch rtype now r = true →
      isNearby dist location r = true → r.userId ≠ userId)
    (hcount : 2 ≤ nearbyCount dist db rtype location now) :
    (createReport dist db userId rtype location now =
      .ok ({ newReportFor dist db userId rtype location now with
             status := .VERIFIED },
        applyUpgrade dist db rtype location now)) ∧
    (newReportFor dist db userId rtype location now).verifiedCount =
      nearbyCount dist db rtype location now + 1 ∧
    (∀ r ∈ db, isRecentMatch rtype now r = true →
      isNearby dist location r = true → r.status = .PENDING →
      upgradeReport (nearbyCount dist db rtype location now) r ∈
        applyUpgrade dist db rtype location now) ∧
    ∀ n : Nat, ∀ r : Report,
      (upgradeReport n r).status = ReportStatus.VERIFIED ∧
      (upgradeReport n r).verifiedCount = n + 1 := by
  have hany : (recentNearby dist db rtype location now).any
      (fun q => q.userId == userId) = false := by
    rw [List.any_eq_false]
    intro q hq
    have hq1 := List.mem_filter.mp hq
    have hq2 := List.mem_filter.mp hq1.1
    simpa using hother q hq2.1 hq2.2 hq1.2
  refine ⟨?_, rfl, ?_, fun n r => ⟨rfl, rfl⟩⟩
  · unfold createReport
    rw [hany]
    rw [if_neg (by simp), if_pos hcount]
  · intro r hr hmatch hnear hpend
    unfold applyUpgrade
    refine List.mem_map.mpr ⟨r, hr, ?_⟩
    simp [hmatch, hnear, hpend]

/-- Witness for createReport_autoVerify: the third distinct reporter (user
3) files the LEAK at the origin after reporters 1 and 2; the new report is
created VERIFIED with count 3 and both pending reports are upgraded. -/
theorem createReport_autoVerify_witness :
    createReport distZero [rAC5, rBC5] 3 .LEAK originPt 0 =
      .ok ({ userId := 3, rtype := .LEAK, location := originPt,
             status := .VERIFIED, bountyAmount := 20000,
             verifiedCount := 3, createdAt := 0 },
        [{ rAC5 with status := .VERIFIED, verifiedCount := 3 },
         { rBC5 with status := .VERIFIED, verifiedCount := 3 }]) :=
  ((createReport_autoVerify distZero [rAC5, rBC5] 3 .LEAK originPt 0
    (by decide) (by decide)).1).trans (by rfl)

/-- Finding in a filtered list equals finding in the original list when
the filter keeps every element satisfying the search predicate. -/
theorem find?_filter_of_imp {α : Type} (l : List α) (f p : α → Bool)
    (h : ∀ a ∈ l, p a = true → f a = true) :
    (l.filter f).find? p = l.find? p := by
  induction l with
  | nil => rfl
  | cons a t ih =>
    have ht : ∀ x ∈ t, p x = true → f x = true :=
      fun x hx => h x (List.mem_cons_of_mem a hx)
    cases hp : p a with
    | true =>
      have hf : f a = true := h a (List.mem_cons_self a t) hp
      rw [List.filter_cons_of_pos hf, List.find?_cons_of_pos _ hp,
        List.find?_cons_of_pos _ hp]
    | false =>
      cases hf : f a with
      | true =>
        rw [List.filter_cons_of_pos hf, List.find?_cons_of_neg _ (by simp [hp]),
          List.find?_cons_of_neg _ (by simp [hp])]
        exact ih ht
      | false =>
        rw [List.filter_cons_of_neg (by simp [hf]),
          List.find?_cons_of_neg _ (by simp [hp])]
        exact ih ht

/-- A catalog with pairwise-distinct product ids, filtered to a
pairwise-distinct key list that is fully covered, has exactly one product
per key. -/
theorem length_filter_by_keys (l : List Product) (keys : List Nat)
    (hkeys : keys.Nodup) (hcat : (l.map Product.id).Nodup)
    (hall : ∀ k ∈ keys, ∃ p ∈ l, p.id = k) :
    (l.filter (fun p => keys.contains p.id)).length = keys.length := by
  have hsub : ((l.filter (fun p => keys.contains p.id)).map Product.id).Sublist
      (l.map Product.id) := (List.filter_sublist l).map Product.id
  have hnd : ((l.filter (fun p => keys.contains p.id)).map Product.id).Nodup :=
    List.Nodup.sublist hsub hcat
  have hmem : ∀ x, x ∈ (l.filter (fun p => keys.contains p.id)).map Product.id
      ↔ x ∈ keys := by
    intro x
    constructor
    · intro hx
      obtain ⟨p, hp, hpx⟩ := List.mem_map.mp hx
      have hc := (List.mem_filter.mp hp).2
      rw [← hpx]
      simpa using hc
    · intro hx
      obtain ⟨p, hpl, hpk⟩ := hall x hx
      refine List.mem_map.mpr ⟨p, List.mem_filter.mpr ⟨hpl, ?_⟩, hpk⟩
      rw [hpk]
      simpa using hx
  have hperm := (List.perm_ext_iff_of_nodup hnd hkeys).mpr hmem
  have hlen := hperm.length_eq
  simpa using hlen

/-- buildItems succeeds when every requested id is found among the matched
products, and the line totals sum to the looked-up price times quantity,
summed. -/
theorem buildItems_spec (products : List Product) (items : List (Nat × Nat))
    (h : ∀ it ∈ items,
      ((products.find? (fun p => p.id = it.1)).isSome) = true) :
    ∃ l, buildItems products items = some l ∧
      (l.map OrderItem.totalPrice).sum = (items.map (fun it =>
        ((products.find? (fun p => p.id = it.1)).map Product.price).getD 0
          * it.2)).sum := by
  induction items with
  | nil => exact ⟨[], rfl, rfl⟩
  | cons it rest ih =>
    obtain ⟨pid, qty⟩ := it
    obtain ⟨p, hp⟩ := Option.isSome_iff_exists.mp
      (h (pid, qty) (List.mem_cons_self _ _))
    obtain ⟨l, hl, hsum⟩ := ih (fun x hx => h x (List.mem_cons_of_mem _ hx))
    refine ⟨{ productId := pid, quantity := qty, unitPrice := p.price,
              totalPrice := p.price * qty } :: l, ?_, ?_⟩
    · simp only [buildItems]
      rw [show (products.find? fun q => decide (q.id = (pid, qty).1)) =
        some p from hp, hl]
      rfl
    · simp only [List.map_cons, List.sum_cons, hsum]
      rw [show (products.find? fun q => decide (q.id = (pid, qty).1)) =
        some p from hp]
      rfl

/-- C3 counterexample: a line-item list repeating the same product id has
all its ids matching available products of an active verified vendor with
minimum order 0, so by the claim the order should be created, but the
handler fails with ProductNotFound because the matched-product count (1)
differs from the requested-id count (2). -/
theorem createOrder_duplicate_ids :
    vendorC3.isActive = true ∧ vendorC3.isVerified = true ∧
    (∀ it ∈ ([(1, 1), (1, 1)] : List (Nat × Nat)), 1 ≤ it.2 ∧
      ∃ p ∈ vendorC3.products, p.id = it.1 ∧ p.isAvailable = true) ∧
    createOrder vendorC3 [(1, 1), (1, 1)] = .error .productNotFound := by
  exact ⟨rfl, rfl, by decide, rfl⟩

/-- C3 amended: for an active, verified vendor whose catalog has
pairwise-distinct product ids, and a nonempty item list with
pairwise-distinct product ids, quantities at least 1 and every id matching
an available catalog product: creation fails with MinimumOrderNotMet
carrying vendor.minOrder exactly when the subtotal Σ(price × qty) is below
vendor.minOrder, and otherwise returns a priced order with subtotal =
Σ(price × qty), the vendor delivery fee, platformFee(subtotal), and total
= subtotal + deliveryFee + platformFee. -/
theorem createOrder_spec (vendor : Vendor) (items : List (Nat × Nat))
    (hactive : vendor.isActive = true) (hverified : vendor.isVerified = true)
    (hne : items ≠ [])
    (hqty : ∀ it ∈ items, 1 ≤ it.2)
    (hids : (items.map Prod.fst).Nodup)
    (hcat : (vendor.products.map Product.id).Nodup)
    (havail : ∀ it ∈ items, ∃ p ∈ vendor.products,
      p.id = it.1 ∧ p.isAvailable = true) :
    ((items.map (fun it => priceOf vendor.products it.1 * it.2)).sum <
        vendor.minOrder →
      createOrder vendor items = .error (.minOrderNotMet vendor.minOrder)) ∧
    (vendor.minOrder ≤
        (items.map (fun it => priceOf vendor.products it.1 * it.2)).sum →
      ∃ po, createOrder vendor items = .ok po ∧
        po.subtotal =
          (items.map (fun it => priceOf vendor.products it.1 * it.2)).sum ∧
        po.deliveryFee = vendor.deliveryFee ∧
        po.platformFee = calculatePlatformFee po.subtotal ∧
        po.totalAmount = po.subtotal + po.deliveryFee + po.platformFee) := by
  have hempty : items.isEmpty = false := by
    cases items with
    | nil => exact absurd rfl hne
    | cons a t => rfl
  have hanyq : (items.any fun it => decide (it.2 < 1)) = false := by
    rw [List.any_eq_false]
    intro x hx
    simpa using Nat.not_lt.mpr (hqty x hx)
  have hkeysall : ∀ k ∈ items.map Prod.fst,
      ∃ p ∈ vendor.products, p.id = k := by
    intro k hk
    obtain ⟨it, hit, hk2⟩ := List.mem_map.mp hk
    obtain ⟨p, hpmem, hpid, _⟩ := havail it hit
    exact ⟨p, hpmem, hk2 ▸ hpid⟩
  have hlen := length_filter_by_keys vendor.products (items.map Prod.fst)
    hids hcat hkeysall
  have hfiltavail : ∀ p ∈ vendor.products.filter
      (fun p => (items.map Prod.fst).contains p.id), p.isAvailable = true := by
    intro p hp
    obtain ⟨hpl, hpc⟩ := List.mem_filter.mp hp
    have hpid : p.id ∈ items.map Prod.fst := by simpa using hpc
    obtain ⟨it, hit, hiteq⟩ := List.mem_map.mp hpid
    obtain ⟨q, hql, hqid, hqav⟩ := havail it hit
    have hpq : p = q :=
      List.inj_on_of_nodup_map hcat hpl hql (by rw [hqid, hiteq])
    rw [hpq]
    exact hqav
  have hnofind : (vendor.products.filter
      (fun p => (items.map Prod.fst).contains p.id)).find?
      (fun p => decide (p.isAvailable = false)) = none := by
    rw [List.find?_eq_none]
    intro p hp
    simp [hfiltavail p hp]
  have hfind : ∀ it ∈ items,
      (vendor.products.filter
        (fun p => (items.map Prod.fst).contains p.id)).find?
        (fun p => decide (p.id = it.1)) =
      vendor.products.find? (fun p => decide (p.id = it.1)) := by
    intro it hit
    apply find?_filter_of_imp
    intro a _ ha
    have ha2 : a.id = it.1 := by simpa using ha
    have h1 : it.1 ∈ items.map Prod.fst := List.mem_map_of_mem Prod.fst hit
    simp [ha2, h1]
  have hsome : ∀ it ∈ items,
      ((vendor.products.filter
        (fun p => (items.map Prod.fst).contains p.id)).find?
        (fun p => decide (p.id = it.1))).isSome = true := by
    intro it hit
    rw [hfind it hit, List.find?_isSome]
    obtain ⟨p, hpl, hpid, _⟩ := havail it hit
    exact ⟨p, hpl, by simp [hpid]⟩
  obtain ⟨l, hl, hsum⟩ := buildItems_spec _ items hsome
  have hsumS : (l.map OrderItem.totalPrice).sum =
      (items.map (fun it => priceOf vendor.products it.1 * it.2)).sum := by
    rw [hsum]
    congr 1
    apply List.map_congr_left
    intro it hit
    rw [hfind it hit]
    rfl
  have hrun : createOrder vendor items =
      if (items.map (fun it => priceOf vendor.products it.1 * it.2)).sum <
          vendor.minOrder then
        .error (.minOrderNotMet vendor.minOrder)
      else
        .ok { subtotal :=
                (items.map (fun it => priceOf vendor.products it.1 * it.2)).sum,
              deliveryFee := vendor.deliveryFee,
              platformFee := calculatePlatformFee
                (items.map (fun it => priceOf vendor.products it.1 * it.2)).sum,
              totalAmount :=
                (items.map (fun it => priceOf vendor.products it.1 * it.2)).sum
                + vendor.deliveryFee + calculatePlatformFee
                  (items.map (fun it => priceOf vendor.products it.1 * it.2)).sum,
              items := l } := by
    unfold createOrder
    rw [if_neg (by
        intro hor
        rcases hor with h | h
        · rw [hempty] at h
          exact Bool.false_ne_true h
        · rw [hanyq] at h
          exact Bool.false_ne_true h),
      if_neg (not_not_intro ⟨hactive, hverified⟩),
      if_neg (not_not_intro hlen),
      if_neg (by
        intro h
        rw [hnofind] at h
        simp at h), hl]
    show (if (l.map OrderItem.totalPrice).sum < vendor.minOrder then
        (Except.error (AppError.minOrderNotMet vendor.minOrder) :
          Except AppError PricedOrder)
      else
        Except.ok ({ subtotal := (l.map OrderItem.totalPrice).sum,
                     deliveryFee := vendor.deliveryFee,
                     platformFee :=
                       calculatePlatformFee (l.map OrderItem.totalPrice).sum,
                     totalAmount := (l.map OrderItem.totalPrice).sum +
                       vendor.deliveryFee +
                       calculatePlatformFee (l.map OrderItem.totalPrice).sum,
                     items := l } : PricedOrder)) = _
    rw [hsumS]
  refine ⟨fun hlt => ?_, fun hge => ?_⟩
  · rw [hrun, if_pos hlt]
  · rw [hrun, if_neg (Nat.not_lt.mpr hge)]
    exact ⟨_, rfl, rfl, rfl, rfl, rfl⟩

/-- Witness for createOrder_spec, reproducing the spec end-to-end
scenario: quantity 1 at price 5000 misses the 10000 minimum; quantity 4
(subtotal 20000) is priced with platform fee 1000 and delivery fee 500 for
a 21500 total. -/
theorem createOrder_spec_witness :
    createOrder vendorC3W [(1, 1)] = .error (.minOrderNotMet 10000) ∧
    ∃ po, createOrder vendorC3W [(1, 4)] = .ok po ∧ po.subtotal = 20000 ∧
      po.platformFee = 1000 ∧ po.totalAmount = 21500 := by
  have h1 := (createOrder_spec vendorC3W [(1, 1)] rfl rfl (by simp)
    (by decide) (by decide) (by decide) (by decide)).1 (by decide)
  have h2 := (createOrder_spec vendorC3W [(1, 4)] rfl rfl (by simp)
    (by decide) (by decide) (by decide) (by decide)).2 (by decide)
  obtain ⟨po, hpo, hsub, hdel, hfee, htot⟩ := h2
  refine ⟨h1, po, hpo, ?_, ?_, ?_⟩
  · rw [hsub]
    decide
  · rw [hfee, hsub]
    decide
  · rw [htot, hfee, hdel, hsub]
    decide

end Maji
